import Mathlib

/-!
Verification of the Event model (src/models/Event.ts).

The file under verification declares a Mongoose schema `eventSchema` for an
Event document, together with a guarded model accessor
`Event = models.Event || eventModel()`.  We embed the schema's validation
semantics shallowly:

* a `Candidate` is a record of optional field values (a field that the
  caller omits is `none`);
* validation applies the declared defaults first (Mongoose sets defaults on
  the document before validators run), then checks every path's `required`
  and `enum` validators, collecting one error per failing path in schema
  declaration order (Mongoose aggregates all path errors); within a single
  path the `required` validator runs first, and its failure short-circuits
  that path's remaining validators, so a value failing both `required` and
  `enum` reports only the required failure;
* for `String` paths, the required check also rejects the empty string
  (Mongoose's `checkRequired` for strings demands positive length);
* a path whose `required` is a function (startTime, endTime, recurrance) is
  conditionally required: its failure is reported as
  `ConditionalRequirementUnmet`; an unconditionally required path that is
  missing reports `MissingRequiredField`; an `enum` violation reports
  `InvalidEnumValue` (the error taxonomy of the validator);
* the JavaScript truthiness in the required functions is preserved:
  `!this.allDay` is true when `allDay` is `false` **or** absent.
-/

/-- Opaque identity reference (Mongoose ObjectId), modelled abstractly. -/
abbrev ObjectId := String

/-- A date/time value; the claims never inspect its structure. -/
abbrev DateVal := String

/-- A candidate record handed to validation: each schema path may be
present (`some`) or absent (`none`).  `admins` is a list whose entries may
individually be null (`none`), mirroring a Mongoose array of ObjectIds. -/
structure Candidate where
  title : Option String
  description : Option String
  attendees : Option String
  location : Option String
  latitude : Option Int
  longitude : Option Int
  recurring : Option Bool
  isRecurringEventException : Option Bool
  isBaseRecurringEvent : Option Bool
  recurrenceRuleId : Option ObjectId
  baseRecurringEventId : Option ObjectId
  allDay : Option Bool
  startDate : Option DateVal
  endDate : Option DateVal
  startTime : Option DateVal
  endTime : Option DateVal
  recurrance : Option String
  isPublic : Option Bool
  isRegisterable : Option Bool
  creatorId : Option ObjectId
  admins : List (Option ObjectId)
  organization : Option ObjectId
  status : Option String
deriving Repr, DecidableEq

/-- A validated Event document (`InterfaceEvent` restricted to the paths the
schema validates; `_id`, `createdAt`, `updatedAt` are system-assigned). -/
structure EventDoc where
  title : String
  description : String
  attendees : Option String
  location : Option String
  latitude : Option Int
  longitude : Option Int
  recurring : Bool
  isRecurringEventException : Bool
  isBaseRecurringEvent : Bool
  recurrenceRuleId : Option ObjectId
  baseRecurringEventId : Option ObjectId
  allDay : Bool
  startDate : DateVal
  endDate : Option DateVal
  startTime : Option DateVal
  endTime : Option DateVal
  recurrance : String
  isPublic : Bool
  isRegisterable : Bool
  creatorId : ObjectId
  admins : List ObjectId
  organization : ObjectId
  status : String
deriving Repr, DecidableEq

/-- Field-level validation failures (the validator's error taxonomy). -/
inductive ValidationError where
  | MissingRequiredField (field : String)
  | ConditionalRequirementUnmet (field : String)
  | InvalidEnumValue (field : String)
deriving Repr, DecidableEq

/-- The path an error names. -/
def ValidationError.fieldName : ValidationError → String
  | .MissingRequiredField f => f
  | .ConditionalRequirementUnmet f => f
  | .InvalidEnumValue f => f

/-- `enum: ["ONCE", "DAILY", "WEEKLY", "MONTHLY", "YEARLY"]` on `recurrance`. -/
def recurranceEnumValues : List String :=
  ["ONCE", "DAILY", "WEEKLY", "MONTHLY", "YEARLY"]

/-- `enum: ["ACTIVE", "BLOCKED", "DELETED"]` on `status`. -/
def statusEnumValues : List String :=
  ["ACTIVE", "BLOCKED", "DELETED"]

/-- Mongoose's required check for `String` paths: the value must be present
and of positive length (the empty string fails). -/
def stringRequiredSatisfied : Option String → Bool
  | some s => !s.isEmpty
  | none => false

/-- `required: function () { return !this.allDay; }` on startTime/endTime.
JavaScript truthiness: `!allDay` is true unless `allDay` is the value
`true` (an absent `allDay` is falsy, so its negation is true). -/
def timeFieldRequired : Option Bool → Bool
  | some true => false
  | _ => true

/-- The validator chain of the `recurrance` path, run on the value after
the default `"ONCE"` is applied.  Mongoose runs a path's `required`
validator first, and a failure short-circuits the path's remaining
validators: when `this.recurring` is truthy the String required check
rejects the empty string with a conditional-required error and the enum
validator is skipped; otherwise the enum validator runs on the value. -/
def recurrancePathErrors (recurringVal : Bool) (v : String) :
    List ValidationError :=
  if recurringVal && !(stringRequiredSatisfied (some v)) then
    [.ConditionalRequirementUnmet "recurrance"]
  else if v ∈ recurranceEnumValues then [] else
    [.InvalidEnumValue "recurrance"]

/-- The validator chain of the `status` path, run on the value after the
default `"ACTIVE"` is applied.  `status` is unconditionally required, so
the String required check rejects the empty string and short-circuits the
enum validator. -/
def statusPathErrors (v : String) : List ValidationError :=
  if !(stringRequiredSatisfied (some v)) then
    [.MissingRequiredField "status"]
  else if v ∈ statusEnumValues then [] else
    [.InvalidEnumValue "status"]

/-- All path-level validation errors of a candidate, in schema declaration
order.  Defaults are applied before the checks run, so the paths
`recurring`, `isRecurringEventException`, `isBaseRecurringEvent`,
`recurrance` and `status` are never absent when their validators fire;
the String required checks on `recurrance` (when required) and `status`
still reject the empty string, preempting those paths' enum checks. -/
def validateErrors (c : Candidate) : List ValidationError :=
  -- title: { type: String, required: true }
  (if stringRequiredSatisfied c.title then [] else
    [.MissingRequiredField "title"])
  -- description: { type: String, required: true }
  ++ (if stringRequiredSatisfied c.description then [] else
    [.MissingRequiredField "description"])
  -- attendees, location, latitude, longitude: not required, no validators
  -- recurring / isRecurringEventException / isBaseRecurringEvent:
  -- required: true with default false, so present after defaulting
  ++ (if (some (c.recurring.getD false)).isNone then
    [.MissingRequiredField "recurring"] else [])
  ++ (if (some (c.isRecurringEventException.getD false)).isNone then
    [.MissingRequiredField "isRecurringEventException"] else [])
  ++ (if (some (c.isBaseRecurringEvent.getD false)).isNone then
    [.MissingRequiredField "isBaseRecurringEvent"] else [])
  -- recurrenceRuleId, baseRecurringEventId: required: false
  -- allDay: { type: Boolean, required: true }
  ++ (if c.allDay.isSome then [] else [.MissingRequiredField "allDay"])
  -- startDate: { type: Date, required: true }
  ++ (if c.startDate.isSome then [] else [.MissingRequiredField "startDate"])
  -- endDate: required: false
  -- startTime: required when !this.allDay
  ++ (if timeFieldRequired c.allDay && c.startTime.isNone then
    [.ConditionalRequirementUnmet "startTime"] else [])
  -- endTime: required when !this.allDay
  ++ (if timeFieldRequired c.allDay && c.endTime.isNone then
    [.ConditionalRequirementUnmet "endTime"] else [])
  -- recurrance: required when this.recurring (evaluated after defaults);
  -- the required check runs first and short-circuits the enum check
  ++ recurrancePathErrors (c.recurring.getD false) (c.recurrance.getD "ONCE")
  -- isPublic: { type: Boolean, required: true }
  ++ (if c.isPublic.isSome then [] else [.MissingRequiredField "isPublic"])
  -- isRegisterable: { type: Boolean, required: true }
  ++ (if c.isRegisterable.isSome then [] else
    [.MissingRequiredField "isRegisterable"])
  -- creatorId: { type: ObjectId, required: true }
  ++ (if c.creatorId.isSome then [] else [.MissingRequiredField "creatorId"])
  -- admins: array whose elements carry required: true (element-level only)
  ++ (if c.admins.any (fun a => a.isNone) then
    [.MissingRequiredField "admins"] else [])
  -- organization: { type: ObjectId, required: true }
  ++ (if c.organization.isSome then [] else
    [.MissingRequiredField "organization"])
  -- status: required: true with default "ACTIVE"; the required check runs
  -- first and short-circuits the enum check
  ++ statusPathErrors (c.status.getD "ACTIVE")

/-- The document produced from a candidate with the schema defaults
applied.  The `getD` fallbacks on unconditionally required paths are inert:
they are only exposed through `validate` when `validateErrors` is empty,
which forces those paths to be present. -/
def buildDoc (c : Candidate) : EventDoc where
  title := c.title.getD ""
  description := c.description.getD ""
  attendees := c.attendees
  location := c.location
  latitude := c.latitude
  longitude := c.longitude
  recurring := c.recurring.getD false
  isRecurringEventException := c.isRecurringEventException.getD false
  isBaseRecurringEvent := c.isBaseRecurringEvent.getD false
  recurrenceRuleId := c.recurrenceRuleId
  baseRecurringEventId := c.baseRecurringEventId
  allDay := c.allDay.getD false
  startDate := c.startDate.getD ""
  endDate := c.endDate
  startTime := c.startTime
  endTime := c.endTime
  recurrance := c.recurrance.getD "ONCE"
  isPublic := c.isPublic.getD false
  isRegisterable := c.isRegisterable.getD false
  creatorId := c.creatorId.getD ""
  admins := c.admins.filterMap id
  organization := c.organization.getD ""
  status := c.status.getD "ACTIVE"

/-- `validate(candidate)`: accept with defaults applied when no path
validator fails, otherwise reject with the collected errors. -/
def validate (c : Candidate) : Except (List ValidationError) EventDoc :=
  match validateErrors c with
  | [] => .ok (buildDoc c)
  | es => .error es

/-- The process-wide slot `models.Event` of the driver's model registry. -/
structure ModelsRegistry where
  event : Option Nat
deriving Repr, DecidableEq

/-- `Event = models.Event || eventModel()`: if a model handle is already
registered, return it and leave the registry unchanged; otherwise construct
one (`fresh` stands for the newly constructed handle) and store it. -/
def registerSingleton (r : ModelsRegistry) (fresh : Nat) :
    Nat × ModelsRegistry :=
  match r.event with
  | some h => (h, r)
  | none => (fresh, { event := some fresh })

/-! ## Basic facts about `validate` -/

/-- Acceptance is exactly the absence of path errors, and the accepted
document is the candidate with defaults applied. -/
lemma validate_ok_iff (c : Candidate) (d : EventDoc) :
    validate c = .ok d ↔ validateErrors c = [] ∧ d = buildDoc c := by
  unfold validate
  cases h : validateErrors c <;> simp [h, eq_comm]

/-- Rejection returns exactly the (nonempty) collected path errors. -/
lemma validate_error_iff (c : Candidate) (es : List ValidationError) :
    validate c = .error es ↔ validateErrors c = es ∧ es ≠ [] := by
  unfold validate
  cases h : validateErrors c <;> simp [h]
  intro he
  subst he
  simp

/-- A candidate with at least one path error is rejected with the
collected error list. -/
lemma validate_error_of_mem {c : Candidate} {e : ValidationError}
    (h : e ∈ validateErrors c) : validate c = .error (validateErrors c) :=
  (validate_error_iff c (validateErrors c)).mpr
    ⟨rfl, List.ne_nil_of_mem h⟩

/-- A candidate with at least one path error is rejected with the
collected (nonempty) error list. -/
lemma validate_error_of_ne_nil {c : Candidate}
    (h : validateErrors c ≠ []) :
    validate c = .error (validateErrors c) :=
  (validate_error_iff c (validateErrors c)).mpr ⟨rfl, h⟩

/-- Membership in a conditional block, pushed through the condition. -/
lemma mem_ite_iff {α : Type} (x : α) (P : Prop) [Decidable P]
    (a b : List α) :
    (x ∈ if P then a else b) ↔ (P ∧ x ∈ a) ∨ (¬P ∧ x ∈ b) := by
  split <;> simp_all

/-- The `recurrance` path chain is silent only when the value is in the
enumeration. -/
lemma recurrancePathErrors_eq_nil {r : Bool} {v : String}
    (h : recurrancePathErrors r v = []) : v ∈ recurranceEnumValues := by
  unfold recurrancePathErrors at h
  split at h
  · simp at h
  · split at h <;> simp_all

/-- The `status` path chain is silent only when the value is in the
enumeration. -/
lemma statusPathErrors_eq_nil {v : String}
    (h : statusPathErrors v = []) : v ∈ statusEnumValues := by
  unfold statusPathErrors at h
  split at h
  · simp at h
  · split at h <;> simp_all

/-- When no path fails, the (defaulted) `recurrance` value passed its enum
check. -/
lemma recurrance_enum_of_nil {c : Candidate} (h : validateErrors c = []) :
    (c.recurrance.getD "ONCE") ∈ recurranceEnumValues := by
  apply recurrancePathErrors_eq_nil (r := c.recurring.getD false)
  simp [validateErrors, List.append_eq_nil] at h
  tauto

/-- When no path fails, the (defaulted) `status` value passed its enum
check. -/
lemma status_enum_of_nil {c : Candidate} (h : validateErrors c = []) :
    (c.status.getD "ACTIVE") ∈ statusEnumValues := by
  apply statusPathErrors_eq_nil
  simp [validateErrors, List.append_eq_nil] at h
  tauto

/-- The spec's worked example: `{title:"Standup", description:"daily sync",
allDay:true, startDate:"2024-01-01", isPublic:true, isRegisterable:false,
creatorId:"u1", organization:"o1"}` with every other field omitted. -/
def standupCandidate : Candidate where
  title := some "Standup"
  description := some "daily sync"
  attendees := none
  location := none
  latitude := none
  longitude := none
  recurring := none
  isRecurringEventException := none
  isBaseRecurringEvent := none
  recurrenceRuleId := none
  baseRecurringEventId := none
  allDay := some true
  startDate := some "2024-01-01"
  endDate := none
  startTime := none
  endTime := none
  recurrance := none
  isPublic := some true
  isRegisterable := some false
  creatorId := some "u1"
  admins := []
  organization := some "o1"
  status := none

/-! ## Claim theorems -/

/-- Claim C1: validation requires `startTime` and `endTime` exactly when
`allDay` is false.  If `allDay` is false and either time is absent, the
candidate is rejected with a `ConditionalRequirementUnmet` error on that
field; if `allDay` is true, absence of the times never contributes a
rejection reason. -/
theorem validate_conditional_time_requirement (c : Candidate) :
    (c.allDay = some false → c.startTime = none →
      ∃ es, validate c = .error es ∧
        ValidationError.ConditionalRequirementUnmet "startTime" ∈ es) ∧
    (c.allDay = some false → c.endTime = none →
      ∃ es, validate c = .error es ∧
        ValidationError.ConditionalRequirementUnmet "endTime" ∈ es) ∧
    (c.allDay = some true → ∀ es, validate c = .error es →
      ValidationError.ConditionalRequirementUnmet "startTime" ∉ es ∧
      ValidationError.ConditionalRequirementUnmet "endTime" ∉ es) := by
  refine ⟨?_, ?_, ?_⟩
  · intro hd hs
    have hmem : ValidationError.ConditionalRequirementUnmet "startTime" ∈
        validateErrors c := by
      simp [validateErrors, hd, hs, timeFieldRequired, List.mem_append]
    exact ⟨validateErrors c, validate_error_of_mem hmem, hmem⟩
  · intro hd hs
    have hmem : ValidationError.ConditionalRequirementUnmet "endTime" ∈
        validateErrors c := by
      simp [validateErrors, hd, hs, timeFieldRequired, List.mem_append]
    exact ⟨validateErrors c, validate_error_of_mem hmem, hmem⟩
  · intro hd es he
    obtain ⟨rfl, -⟩ := (validate_error_iff c es).mp he
    constructor <;>
      simp [validateErrors, recurrancePathErrors, statusPathErrors, hd,
        timeFieldRequired, List.mem_append, mem_ite_iff,
        List.mem_ite_nil_left, List.mem_ite_nil_right]

/-- Concrete instance of C1: the spec's second worked example, the standup
candidate with `allDay` set to false and no times, is rejected with
`ConditionalRequirementUnmet` on `startTime`. -/
theorem validate_conditional_time_requirement_instance :
    ∃ es, validate { standupCandidate with allDay := some false } =
        .error es ∧
      ValidationError.ConditionalRequirementUnmet "startTime" ∈ es :=
  (validate_conditional_time_requirement
    { standupCandidate with allDay := some false }).1 rfl rfl

/-- Counterexample to claim C2 as stated: at `recurring = true` with the
out-of-enum value `recurrance = ""`, the conditional required validator
fires first (the String required check rejects the empty string) and the
enum validator is skipped, so the rejection carries
`ConditionalRequirementUnmet`, not the claimed `InvalidEnumValue`. -/
theorem recurrance_empty_string_counterexample :
    ({ standupCandidate with recurring := some true, recurrance := some "" } : Candidate).recurring = some true ∧
    "" ∉ recurranceEnumValues ∧
    validate { standupCandidate with recurring := some true, recurrance := some "" } =
      .error [ValidationError.ConditionalRequirementUnmet "recurrance"] ∧
    ValidationError.InvalidEnumValue "recurrance" ∉
      [ValidationError.ConditionalRequirementUnmet "recurrance"] :=
  ⟨rfl, by decide, rfl, by decide⟩

/-- Claim C2 (amended): for a candidate with `recurring = true`, the
`recurrance` of every accepted document is one of the five enumerated
values; a supplied out-of-enum `recurrance` is rejected — with
`InvalidEnumValue` when it is non-empty, while the empty string fails the
conditional required check first and is rejected with
`ConditionalRequirementUnmet`. -/
theorem validate_recurrance_enum_when_recurring (c : Candidate) :
    (c.recurring = some true → ∀ d, validate c = .ok d →
      d.recurrance ∈ recurranceEnumValues) ∧
    (c.recurring = some true → ∀ v, c.recurrance = some v →
      v ∉ recurranceEnumValues → v ≠ "" →
      ∃ es, validate c = .error es ∧
        ValidationError.InvalidEnumValue "recurrance" ∈ es) ∧
    (c.recurring = some true → c.recurrance = some "" →
      ∃ es, validate c = .error es ∧
        ValidationError.ConditionalRequirementUnmet "recurrance" ∈ es) := by
  refine ⟨?_, ?_, ?_⟩
  · intro _ d h
    obtain ⟨hnil, rfl⟩ := (validate_ok_iff c d).mp h
    simpa [buildDoc] using recurrance_enum_of_nil hnil
  · intro _ v hv hn hne
    have hE : v.isEmpty = false := by
      cases hE : v.isEmpty
      · rfl
      · exact absurd ((String.isEmpty_iff v).mp hE) hne
    have hmem : ValidationError.InvalidEnumValue "recurrance" ∈
        validateErrors c := by
      simp [validateErrors, recurrancePathErrors, stringRequiredSatisfied,
        hv, hn, hE, List.mem_append]
    exact ⟨validateErrors c, validate_error_of_mem hmem, hmem⟩
  · intro hr hv
    have hmem : ValidationError.ConditionalRequirementUnmet "recurrance" ∈
        validateErrors c := by
      simp [validateErrors, recurrancePathErrors, stringRequiredSatisfied,
        String.isEmpty, hr, hv, List.mem_append]
    exact ⟨validateErrors c, validate_error_of_mem hmem, hmem⟩

/-- Concrete instances of C2 (amended): a recurring candidate with
`recurrance = "HOURLY"` is rejected with `InvalidEnumValue`, and one with
`recurrance = ""` is rejected with `ConditionalRequirementUnmet`. -/
theorem validate_recurrance_enum_when_recurring_instance :
    (∃ es, validate { standupCandidate with recurring := some true, recurrance := some "HOURLY" } = .error es ∧
      ValidationError.InvalidEnumValue "recurrance" ∈ es) ∧
    (∃ es, validate { standupCandidate with recurring := some true, recurrance := some "" } = .error es ∧
      ValidationError.ConditionalRequirementUnmet "recurrance" ∈ es) :=
  ⟨(validate_recurrance_enum_when_recurring
      { standupCandidate with recurring := some true, recurrance := some "HOURLY" }).2.1
      rfl "HOURLY" rfl (by decide) (by decide),
    (validate_recurrance_enum_when_recurring
      { standupCandidate with recurring := some true, recurrance := some "" }).2.2
      rfl rfl⟩

/-- Claim C3: every accepted document carries the declared defaults for the
fields the candidate omitted: `recurring = false`,
`isRecurringEventException = false`, `isBaseRecurringEvent = false`,
`recurrance = "ONCE"` and `status = "ACTIVE"`. -/
theorem validate_defaults_applied (c : Candidate) (d : EventDoc)
    (h : validate c = .ok d) :
    (c.recurring = none → d.recurring = false) ∧
    (c.isRecurringEventException = none →
      d.isRecurringEventException = false) ∧
    (c.isBaseRecurringEvent = none → d.isBaseRecurringEvent = false) ∧
    (c.recurrance = none → d.recurrance = "ONCE") ∧
    (c.status = none → d.status = "ACTIVE") := by
  obtain ⟨-, rfl⟩ := (validate_ok_iff c d).mp h
  refine ⟨?_, ?_, ?_, ?_, ?_⟩ <;> intro hf <;> simp [buildDoc, hf]

/-- Concrete instance of C3: the spec's worked example is accepted with
`recurring = false`, `recurrance = "ONCE"` and `status = "ACTIVE"`. -/
theorem validate_defaults_applied_instance :
    validate standupCandidate = .ok (buildDoc standupCandidate) ∧
    (buildDoc standupCandidate).recurring = false ∧
    (buildDoc standupCandidate).recurrance = "ONCE" ∧
    (buildDoc standupCandidate).status = "ACTIVE" := by
  have h := validate_defaults_applied standupCandidate
    (buildDoc standupCandidate) rfl
  exact ⟨rfl, h.1 rfl, h.2.2.2.1 rfl, h.2.2.2.2 rfl⟩

/-- Claim C4: every accepted document's `status` lies in
{ACTIVE, BLOCKED, DELETED} and no other supplied value is accepted: an
out-of-enum `status` is always rejected (with `InvalidEnumValue` when it
is non-empty; the empty string already fails the String required check,
which fires first, with `MissingRequiredField`); omitting `status`
defaults it to `"ACTIVE"`. -/
theorem validate_status_enum_and_default (c : Candidate) :
    (∀ d, validate c = .ok d → d.status ∈ statusEnumValues) ∧
    (∀ v, c.status = some v → v ∉ statusEnumValues →
      ∃ es, validate c = .error es) ∧
    (∀ v, c.status = some v → v ∉ statusEnumValues → v ≠ "" →
      ∃ es, validate c = .error es ∧
        ValidationError.InvalidEnumValue "status" ∈ es) ∧
    (c.status = some "" →
      ∃ es, validate c = .error es ∧
        ValidationError.MissingRequiredField "status" ∈ es) ∧
    (c.status = none → ∀ d, validate c = .ok d → d.status = "ACTIVE") := by
  refine ⟨?_, ?_, ?_, ?_, ?_⟩
  · intro d h
    obtain ⟨hnil, rfl⟩ := (validate_ok_iff c d).mp h
    simpa [buildDoc] using status_enum_of_nil hnil
  · intro v hv hn
    refine ⟨validateErrors c, validate_error_of_ne_nil ?_⟩
    intro hnil
    exact hn (by simpa [hv] using status_enum_of_nil hnil)
  · intro v hv hn hne
    have hE : v.isEmpty = false := by
      cases hE : v.isEmpty
      · rfl
      · exact absurd ((String.isEmpty_iff v).mp hE) hne
    have hmem : ValidationError.InvalidEnumValue "status" ∈
        validateErrors c := by
      simp [validateErrors, statusPathErrors, stringRequiredSatisfied,
        hv, hn, hE, List.mem_append]
    exact ⟨validateErrors c, validate_error_of_mem hmem, hmem⟩
  · intro hv
    have hmem : ValidationError.MissingRequiredField "status" ∈
        validateErrors c := by
      simp [validateErrors, statusPathErrors, stringRequiredSatisfied,
        String.isEmpty, hv, List.mem_append]
    exact ⟨validateErrors c, validate_error_of_mem hmem, hmem⟩
  · intro hf d h
    obtain ⟨-, rfl⟩ := (validate_ok_iff c d).mp h
    simp [buildDoc, hf]

/-- Concrete instances of C4: the worked example omits `status` and is
accepted with `status = "ACTIVE"`, which is in the enumeration; an
out-of-enum `status = "PAUSED"` is rejected with `InvalidEnumValue`; an
empty-string `status` is rejected by the required check. -/
theorem validate_status_enum_and_default_instance :
    ((buildDoc standupCandidate).status ∈ statusEnumValues ∧
      (buildDoc standupCandidate).status = "ACTIVE") ∧
    (∃ es, validate { standupCandidate with status := some "PAUSED" } = .error es ∧
      ValidationError.InvalidEnumValue "status" ∈ es) ∧
    (∃ es, validate { standupCandidate with status := some "" } = .error es ∧
      ValidationError.MissingRequiredField "status" ∈ es) := by
  have h := validate_status_enum_and_default standupCandidate
  exact ⟨⟨h.1 (buildDoc standupCandidate) rfl,
      h.2.2.2.2 rfl (buildDoc standupCandidate) rfl⟩,
    (validate_status_enum_and_default
        { standupCandidate with status := some "PAUSED" }).2.2.1
      "PAUSED" rfl (by decide) (by decide),
    (validate_status_enum_and_default
        { standupCandidate with status := some "" }).2.2.2.1 rfl⟩

/-- Claim C5: the model accessor is idempotent over process-wide state: an
already-registered handle is returned unchanged, and two sequential calls
return the identical handle and leave the registry identical. -/
theorem registerSingleton_idempotent (r : ModelsRegistry) (f g : Nat) :
    (∀ h, r.event = some h → registerSingleton r f = (h, r)) ∧
    (registerSingleton (registerSingleton r f).2 g).1 =
      (registerSingleton r f).1 ∧
    (registerSingleton (registerSingleton r f).2 g).2 =
      (registerSingleton r f).2 := by
  cases hr : r.event <;>
    simp [registerSingleton, hr]

/-- Concrete instance of C5: a registry that already holds handle 5 returns
it unchanged, and a fresh registry hands out the same handle on both of two
sequential calls. -/
theorem registerSingleton_idempotent_instance :
    registerSingleton ⟨some 5⟩ 7 = (5, ⟨some 5⟩) ∧
    (registerSingleton (registerSingleton ⟨none⟩ 7).2 9).1 =
      (registerSingleton (⟨none⟩ : ModelsRegistry) 7).1 :=
  ⟨(registerSingleton_idempotent ⟨some 5⟩ 7 0).1 5 rfl,
    (registerSingleton_idempotent ⟨none⟩ 7 9).2.1⟩

/-- Counterexample to claim C6 as stated: the claim says a candidate
omitting `longitude` is rejected, but the schema declares
`longitude: { required: false }`, so the spec's own worked example — which
omits `longitude` — is accepted. -/
theorem longitude_omitted_accepted_counterexample :
    standupCandidate.longitude = none ∧
    validate standupCandidate = .ok (buildDoc standupCandidate) :=
  ⟨rfl, rfl⟩

/-- Claim C6 (amended): `longitude` is not required by the schema
(`required: false`), despite the accompanying TypeScript interface typing
it as non-optional: removing `longitude` from an accepted candidate keeps
it accepted, and no rejection ever names `longitude`. -/
theorem longitude_not_required (c : Candidate) :
    (∀ d, validate c = .ok d →
      ∃ e, validate { c with longitude := none } = .ok e ∧
        e.longitude = none) ∧
    (∀ es, validate c = .error es →
      ValidationError.MissingRequiredField "longitude" ∉ es ∧
      ValidationError.ConditionalRequirementUnmet "longitude" ∉ es ∧
      ValidationError.InvalidEnumValue "longitude" ∉ es) := by
  constructor
  · intro d h
    obtain ⟨hnil, rfl⟩ := (validate_ok_iff c d).mp h
    exact ⟨buildDoc { c with longitude := none },
      (validate_ok_iff _ _).mpr ⟨hnil, rfl⟩, rfl⟩
  · intro es he
    obtain ⟨rfl, -⟩ := (validate_error_iff c es).mp he
    refine ⟨?_, ?_, ?_⟩ <;>
      simp [validateErrors, recurrancePathErrors, statusPathErrors,
        List.mem_append, mem_ite_iff,
        List.mem_ite_nil_left, List.mem_ite_nil_right]

/-- Concrete instance of C6 (amended): dropping `longitude` from an
accepted candidate keeps it accepted, and a candidate rejected for a
missing title lists no error about `longitude`. -/
theorem longitude_not_required_instance :
    (∃ e, validate { standupCandidate with longitude := none } = .ok e ∧
      e.longitude = none) ∧
    ValidationError.MissingRequiredField "longitude" ∉
      [ValidationError.MissingRequiredField "title"] :=
  ⟨(longitude_not_required standupCandidate).1
      (buildDoc standupCandidate) rfl,
    ((longitude_not_required { standupCandidate with title := none }).2
      [ValidationError.MissingRequiredField "title"] rfl).1⟩

/-- Claim C7: no cross-field rule forbids `isBaseRecurringEvent` and
`isRecurringEventException` from both being true: a candidate carrying both
flags (and satisfying every other constraint) is accepted. -/
theorem both_recurring_flags_accepted :
    ∃ d, validate { standupCandidate with isBaseRecurringEvent := some true, isRecurringEventException := some true } = .ok d ∧
      d.isBaseRecurringEvent = true ∧ d.isRecurringEventException = true :=
  ⟨buildDoc { standupCandidate with isBaseRecurringEvent := some true, isRecurringEventException := some true },
    rfl, rfl, rfl⟩

/-- Claim C8: `title` and `description` are required non-empty text: a
candidate whose title (resp. description) is absent or the empty string is
rejected with a missing-required error on that field. -/
theorem title_description_required_nonempty (c : Candidate) :
    ((c.title = none ∨ c.title = some "") →
      ∃ es, validate c = .error es ∧
        ValidationError.MissingRequiredField "title" ∈ es) ∧
    ((c.description = none ∨ c.description = some "") →
      ∃ es, validate c = .error es ∧
        ValidationError.MissingRequiredField "description" ∈ es) := by
  constructor
  · intro h
    have hmem : ValidationError.MissingRequiredField "title" ∈
        validateErrors c := by
      rcases h with h | h <;>
        simp [validateErrors, h, stringRequiredSatisfied, String.isEmpty,
          List.mem_append]
    exact ⟨validateErrors c, validate_error_of_mem hmem, hmem⟩
  · intro h
    have hmem : ValidationError.MissingRequiredField "description" ∈
        validateErrors c := by
      rcases h with h | h <;>
        simp [validateErrors, h, stringRequiredSatisfied, String.isEmpty,
          List.mem_append]
    exact ⟨validateErrors c, validate_error_of_mem hmem, hmem⟩

/-- Concrete instance of C8: an empty-string title is rejected with a
missing-required error on `title`. -/
theorem title_description_required_nonempty_instance :
    ∃ es, validate { standupCandidate with title := some "" } = .error es ∧
      ValidationError.MissingRequiredField "title" ∈ es :=
  (title_description_required_nonempty
    { standupCandidate with title := some "" }).1 (Or.inr rfl)

/-- Claim C9: the `recurrance` enumeration is enforced regardless of the
`recurring` flag: any supplied out-of-enum `recurrance` is rejected, with
no hypothesis on `recurring` — the enum constraint is not conditional,
only the requiredness is.  When `recurring` is not truthy the conditional
required validator cannot preempt the enum validator, so the rejection
then carries `InvalidEnumValue`. -/
theorem recurrance_enum_unconditional (c : Candidate) (v : String)
    (hv : c.recurrance = some v) (hn : v ∉ recurranceEnumValues) :
    (∃ es, validate c = .error es) ∧
    (c.recurring.getD false = false →
      ∃ es, validate c = .error es ∧
        ValidationError.InvalidEnumValue "recurrance" ∈ es) := by
  constructor
  · refine ⟨validateErrors c, validate_error_of_ne_nil ?_⟩
    intro hnil
    exact hn (by simpa [hv] using recurrance_enum_of_nil hnil)
  · intro hr
    have hmem : ValidationError.InvalidEnumValue "recurrance" ∈
        validateErrors c := by
      simp [validateErrors, recurrancePathErrors, hr, hv, hn,
        List.mem_append]
    exact ⟨validateErrors c, validate_error_of_mem hmem, hmem⟩

/-- Concrete instance of C9: `recurrance = "HOURLY"` is rejected with
`InvalidEnumValue` even with `recurring = false`. -/
theorem recurrance_enum_unconditional_instance :
    ∃ es, validate { standupCandidate with recurring := some false, recurrance := some "HOURLY" } = .error es ∧
      ValidationError.InvalidEnumValue "recurrance" ∈ es :=
  (recurrance_enum_unconditional
    { standupCandidate with recurring := some false, recurrance := some "HOURLY" }
    "HOURLY" rfl (by decide)).2 rfl

/-- Claim C10: the `admins` list may be empty: an empty `admins` array
never contributes a rejection reason (the element-level required constraint
only rejects null entries that are present), and a candidate with empty
`admins` satisfying the other constraints is accepted. -/
theorem admins_empty_accepted (c : Candidate) :
    (c.admins = [] → ∀ es, validate c = .error es →
      ValidationError.MissingRequiredField "admins" ∉ es) ∧
    (∃ d, validate standupCandidate = .ok d ∧ d.admins = [] ∧
      standupCandidate.admins = []) := by
  constructor
  · intro ha es he
    obtain ⟨rfl, -⟩ := (validate_error_iff c es).mp he
    simp [validateErrors, recurrancePathErrors, statusPathErrors, ha,
      List.mem_append, mem_ite_iff,
      List.mem_ite_nil_left, List.mem_ite_nil_right]
  · exact ⟨buildDoc standupCandidate, rfl, rfl, rfl⟩

/-- Concrete instance of C10: a candidate with empty `admins` rejected for
its missing title lists no error about `admins`. -/
theorem admins_empty_accepted_instance :
    ValidationError.MissingRequiredField "admins" ∉
      [ValidationError.MissingRequiredField "title"] :=
  (admins_empty_accepted { standupCandidate with title := none }).1
    rfl [ValidationError.MissingRequiredField "title"] rfl
